import Mathlib

/-!
Verification of the libsuspend autosuspend engine
(src/libsuspend/autosuspend.c, autosuspend_wakeup_count.c,
autosuspend_earlysuspend.c) against its design specification.

The C code is shallowly embedded: pure logic becomes Lean functions,
static mutable state becomes explicit state passing, the kernel/sysfs
environment becomes an explicit environment record, and the
suspend-loop / caller concurrency becomes a labelled transition
system over an abstract semaphore state.
-/

namespace Autosuspend

/-! ### Input events (linux/uinput constants used by the code) -/

/-- linux input event constant EV_SYN. -/
def EV_SYN : Nat := 0

/-- linux input event constant EV_KEY. -/
def EV_KEY : Nat := 1

/-- linux input event constant SYN_REPORT. -/
def SYN_REPORT : Nat := 0

/-- linux key code KEY_POWER. -/
def KEY_POWER : Nat := 116

/-- linux key code KEY_WAKEUP. -/
def KEY_WAKEUP : Nat := 143

/-- One `struct input_event` as the code fills it (time fields are
always zeroed by `emit_key`, so they are omitted). -/
structure InputEvent where
  type : Nat
  code : Nat
  value : Int
deriving DecidableEq, Repr

/-- Embedding of `emit_key` (autosuspend_wakeup_count.c:49): fills an
event struct with EV_KEY/key_code/val, writes it, then mutates the same
struct to EV_SYN/SYN_REPORT/0 and writes again.  The return value is
the sequence of events written to the uinput fd. -/
def emit_key (key_code : Nat) (val : Int) : List InputEvent :=
  let iev1 : InputEvent := { type := EV_KEY, code := key_code, value := val }
  let iev2 : InputEvent := { iev1 with type := EV_SYN, code := SYN_REPORT, value := 0 }
  [iev1, iev2]

/-- Embedding of `send_key_wakeup` (autosuspend_wakeup_count.c:65). -/
def send_key_wakeup : List InputEvent :=
  emit_key KEY_WAKEUP 1 ++ emit_key KEY_WAKEUP 0

set_option linter.unusedVariables false in
/-- Embedding of `send_key_power` (autosuspend_wakeup_count.c:71): the
longpress flag only inserts a 2 second sleep between the two edges; the
event sequence written is the same either way. -/
def send_key_power (longpress : Bool) : List InputEvent :=
  emit_key KEY_POWER 1 ++ emit_key KEY_POWER 0

/-! ### Power-button device scan (`openfds`) -/

/-- Maximum number of matched power buttons (MAX_POWERBTNS). -/
def MAX_POWERBTNS : Nat := 3

/-- One directory entry of /dev/input as `openfds` probes it:
its `d_name`, whether `open` succeeds, and the device name the
EVIOCGNAME ioctl reports (`none` = ioctl failure, which the code turns
into the empty name). -/
structure InputDevEntry where
  d_name : String
  openable : Bool
  devName : Option String
deriving DecidableEq, Repr

/-- The device name `openfds` ends up comparing: the ioctl result, or
the empty string when the ioctl failed. -/
def reportedName (e : InputDevEntry) : String :=
  e.devName.getD ""

/-- Embedding of the `openfds` scan loop (autosuspend_wakeup_count.c:78):
walks the directory entries in order while fewer than MAX_POWERBTNS
devices are kept; skips entries not starting with 'e'; skips entries that
fail to open; keeps an opened entry iff its reported name is exactly
"Power Button", closing it otherwise.  Returns (kept, closed). -/
def openfdsAux : List InputDevEntry → Nat → List InputDevEntry × List InputDevEntry
  | [], _ => ([], [])
  | e :: es, cnt =>
    if cnt < MAX_POWERBTNS then
      if e.d_name.data.head? = some 'e' then
        if e.openable then
          if reportedName e = "Power Button" then
            let r := openfdsAux es (cnt + 1)
            (e :: r.1, r.2)
          else
            let r := openfdsAux es cnt
            (r.1, e :: r.2)
        else openfdsAux es cnt
      else openfdsAux es cnt
    else ([], [])

/-- `openfds` proper: the scan starting with zero kept devices. -/
def openfds (entries : List InputDevEntry) : List InputDevEntry × List InputDevEntry :=
  openfdsAux entries 0

/-! ### Power-button monitor loop (`powerbtnd_thread_func`) -/

/-- What one iteration of the monitor loop observes: either `poll`
returned 0 (the disambiguation window timed out) or one input event was
read from a matched device. -/
inductive PollOutcome where
  | timeoutFire : PollOutcome
  | ev : InputEvent → PollOutcome
deriving DecidableEq, Repr

/-- The monitor's loop-carried state: the current poll timeout
(-1 = block forever, 1000 = disambiguation window) and the long-press
flag. -/
structure BtnState where
  timeout : Int
  longpress : Bool
deriving DecidableEq, Repr

/-- The state the monitor thread starts with
(autosuspend_wakeup_count.c:121,125): longpress = true, timeout = -1. -/
def btnInit : BtnState := { timeout := -1, longpress := true }

/-- Embedding of one iteration of `powerbtnd_thread_func`
(autosuspend_wakeup_count.c:128): returns the new state and the list of
`send_key_power` calls made, each recorded by its longpress argument.
On timeout: send a short press, reset window, set longpress.  On a
power-key release: synthesize immediately (honoring longpress) when
double-click is off or a window is pending, else arm a 1000 ms window.
On a non-zero SYN_REPORT (resume): clear longpress and arm a 1000 ms
window.  Anything else is ignored. -/
def powerbtnd_step (doubleclick : Bool) (s : BtnState) : PollOutcome → BtnState × List Bool
  | .timeoutFire => ({ timeout := -1, longpress := true }, [false])
  | .ev iev =>
    if iev.type = EV_KEY ∧ iev.code = KEY_POWER ∧ iev.value = 0 then
      if doubleclick = false ∨ s.timeout > 0 then
        ({ s with timeout := -1 }, [s.longpress])
      else
        ({ s with timeout := 1000 }, [])
    else if iev.type = EV_SYN ∧ iev.code = SYN_REPORT ∧ iev.value ≠ 0 then
      ({ timeout := 1000, longpress := false }, [])
    else (s, [])

/-- Run the monitor loop over a script of poll outcomes, collecting all
synthesized power presses. -/
def powerbtnd_run (doubleclick : Bool) : BtnState → List PollOutcome → List Bool
  | _, [] => []
  | s, o :: os =>
    let r := powerbtnd_step doubleclick s o
    r.2 ++ powerbtnd_run doubleclick r.1 os

/-- Embedding of the whole monitor thread body: `cnt` devices were
matched by `openfds`; the loop `while (cnt > 0 && poll(...) >= 0)` is
never entered when cnt = 0, so no synthetic key is emitted. -/
def powerbtnd_thread (doubleclick : Bool) (cnt : Nat) (script : List PollOutcome) :
    List Bool :=
  if cnt = 0 then [] else powerbtnd_run doubleclick btnInit script

/-- A power-key release event as read from a matched device. -/
def powerRelease : InputEvent := { type := EV_KEY, code := KEY_POWER, value := 0 }

/-- A non-zero SYN_REPORT, which the monitor treats as a resume signal. -/
def resumeReport : InputEvent := { type := EV_SYN, code := SYN_REPORT, value := 1 }

/-! ### One wakeup-count suspend cycle (`suspend_thread_func` body) -/

/-- The outcomes of the blocking kernel calls one iteration of
`suspend_thread_func` makes, in program order: the result of reading
the wakeup_count file (its length; negative = error, 0 = empty), whether
`sem_wait` succeeded, whether the commit write of the token back to
wakeup_count was accepted, and whether the write of the sleep state to
the power-state node succeeded.  `callbackSet` is whether `wakeup_func`
is non-NULL when the cycle samples it. -/
structure CycleEnv where
  readLen : Int
  semWaitOk : Bool
  commitOk : Bool
  stateWriteOk : Bool
  callbackSet : Bool
deriving DecidableEq, Repr

/-- What one iteration of `suspend_thread_func` did: whether each
phase's write was attempted, which key events were written to the
uinput device, the argument the wakeup callback was invoked with
(`none` = not invoked), and whether the lockout semaphore was posted
back at the end of the iteration. -/
structure CycleResult where
  commitAttempted : Bool
  stateWriteAttempted : Bool
  keysSent : List InputEvent
  callbackInvoked : Option Bool
  semPosted : Bool
deriving DecidableEq, Repr

/-- Embedding of one iteration of the suspend loop
(autosuspend_wakeup_count.c:199-251).  A failed or empty wakeup_count
read `continue`s before `sem_wait`.  A failed `sem_wait` `continue`s
before the commit write.  After a successful `sem_wait`, `success` is
set true and the token is written back: if that commit write fails the
iteration only logs — it neither writes the sleep state nor invokes the
callback; otherwise the sleep state is written, on success the wakeup
key pair is sent, on failure `success` becomes false, and then the
callback (if set) is invoked with `success`.  Either way after the
commit attempt the semaphore is posted. -/
def suspend_cycle (env : CycleEnv) : CycleResult :=
  if env.readLen < 0 ∨ env.readLen = 0 then
    { commitAttempted := false, stateWriteAttempted := false, keysSent := [],
      callbackInvoked := none, semPosted := false }
  else if env.semWaitOk = false then
    { commitAttempted := false, stateWriteAttempted := false, keysSent := [],
      callbackInvoked := none, semPosted := false }
  else if env.commitOk = false then
    { commitAttempted := true, stateWriteAttempted := false, keysSent := [],
      callbackInvoked := none, semPosted := true }
  else
    let success := env.stateWriteOk
    { commitAttempted := true, stateWriteAttempted := true,
      keysSent := if env.stateWriteOk then send_key_wakeup else [],
      callbackInvoked := if env.callbackSet then some success else none,
      semPosted := true }

/-! ### Wakeup callback registration (`set_wakeup_callback`) -/

/-- Embedding of `set_wakeup_callback` (autosuspend_wakeup_count.c:293):
if a callback is already registered the call is logged and ignored,
otherwise the given callback is stored. -/
def set_wakeup_callback {α : Type} (cur : Option α) (f : α) : Option α :=
  match cur with
  | some g => some g
  | none => some f

/-! ### Backend initialization and controller selection -/

/-- The two backends the controller can select. -/
inductive Backend where
  | earlySuspend : Backend
  | wakeupCount : Backend
deriving DecidableEq, Repr

/-- The kernel/sysfs and property environment `autosuspend_init` and the
two backend inits probe.  `earlysuspendPropBuf` is the buffer
`property_get("sleep.earlysuspend", buf, "1")` fills (so an unset
property yields "1").  `esPowerStateReadable` is whether
`open_file(SYS_POWER_STATE, ...)`'s open-then-read succeeds in the
early-suspend init; `fbSleepNodeExists` / `fbWakeNodeExists` are the
`access()` probes of the two wait_for_fb nodes; `esThreadCreateOk` is
the monitor pthread_create; the `wc*` fields are the wakeup-count
init's opens, sem_init and pthread_create. -/
structure InitEnv where
  earlysuspendPropBuf : String
  esPowerStateReadable : Bool
  fbSleepNodeExists : Bool
  fbWakeNodeExists : Bool
  esThreadCreateOk : Bool
  wcStateOpenOk : Bool
  wcWakeupCountOpenOk : Bool
  wcSemInitOk : Bool
  wcThreadCreateOk : Bool
deriving DecidableEq, Repr

/-- Embedding of `start_earlysuspend_thread`
(autosuspend_earlysuspend.c:172): returns the resulting
`wait_for_earlysuspend` flag, which becomes true only when both
fb-wait nodes exist and the monitor thread was created.  It never
fails the backend. -/
def start_earlysuspend_thread (env : InitEnv) : Bool :=
  if env.fbSleepNodeExists = false then false
  else if env.fbWakeNodeExists = false then false
  else if env.esThreadCreateOk then true else false

/-- Embedding of `autosuspend_earlysuspend_init`
(autosuspend_earlysuspend.c:200): fails (returns none) iff opening and
reading SYS_POWER_STATE fails; on success it runs
`start_earlysuspend_thread` (whose own failures are swallowed) and
returns the early-suspend ops together with the resulting
wait_for_earlysuspend flag. -/
def autosuspend_earlysuspend_init (env : InitEnv) : Option (Backend × Bool) :=
  if env.esPowerStateReadable then
    some (Backend.earlySuspend, start_earlysuspend_thread env)
  else none

/-- Embedding of `autosuspend_wakeup_count_init`
(autosuspend_wakeup_count.c:307): fails iff opening SYS_POWER_STATE,
opening the wakeup_count node, sem_init or pthread_create fails. -/
def autosuspend_wakeup_count_init (env : InitEnv) : Option Backend :=
  if env.wcStateOpenOk ∧ env.wcWakeupCountOpenOk ∧ env.wcSemInitOk ∧
      env.wcThreadCreateOk then
    some Backend.wakeupCount
  else none

/-- The early-suspend config flag test (autosuspend.c:45-46):
`buf[0] == '1'` on the property buffer. -/
def earlysuspendFlag (env : InitEnv) : Bool :=
  env.earlysuspendPropBuf.data.head? = some '1'

/-- The backend `autosuspend_init` (autosuspend.c:37) would select in
environment `env`: early-suspend is tried only when the flag is set,
and the first backend whose init succeeds wins; none means
initialization fails with -1. -/
def selectBackend (env : InitEnv) : Option Backend :=
  match (if earlysuspendFlag env then autosuspend_earlysuspend_init env else none) with
  | some r => some r.1
  | none => autosuspend_wakeup_count_init env

/-- Modelled from the spec (not from the source): the backend selection
rule as claim C3 states it — EarlySuspend iff the early-suspend flag is
set and both fb-wait kernel nodes are present, WakeupCount in every
other case.  Kept only to compare against `selectBackend`, the rule the
source actually implements. -/
def selectBackendSpecC3 (env : InitEnv) : Option Backend :=
  if earlysuspendFlag env ∧ env.fbSleepNodeExists ∧ env.fbWakeNodeExists then
    some Backend.earlySuspend
  else autosuspend_wakeup_count_init env

/-- The controller's static state (autosuspend.c:33-35):
the selected ops, the enabled flag and the one-time-init flag. -/
structure Ctrl where
  ops : Option Backend
  enabled : Bool
  inited : Bool
deriving DecidableEq, Repr

/-- The controller's state at process start. -/
def ctrlInit : Ctrl := { ops := none, enabled := false, inited := false }

/-- Embedding of `autosuspend_init` (autosuspend.c:37): returns 0
immediately once `autosuspend_inited` is set; otherwise probes the
backends and only on success sets the ops and the inited flag;
on total failure returns -1 leaving the state untouched. -/
def autosuspend_init (s : Ctrl) (env : InitEnv) : Int × Ctrl :=
  if s.inited then (0, s)
  else
    match selectBackend env with
    | some b => (0, { s with ops := some b, inited := true })
    | none => (-1, s)

/-- Embedding of `autosuspend_enable` (autosuspend.c:78).
`backendRet` is the status the selected backend's enable() returns if
it is called. -/
def autosuspend_enable (s : Ctrl) (env : InitEnv) (backendRet : Int) : Int × Ctrl :=
  let r := autosuspend_init s env
  if r.1 ≠ 0 then r
  else if r.2.enabled then (0, r.2)
  else if backendRet ≠ 0 then (backendRet, r.2)
  else (0, { r.2 with enabled := true })

/-- Embedding of `autosuspend_disable` (autosuspend.c:102). -/
def autosuspend_disable (s : Ctrl) (env : InitEnv) (backendRet : Int) : Int × Ctrl :=
  let r := autosuspend_init s env
  if r.1 ≠ 0 then r
  else if r.2.enabled = false then (0, r.2)
  else if backendRet ≠ 0 then (backendRet, r.2)
  else (0, { r.2 with enabled := false })

/-! ### Sleep-state resolution (`get_sleep_state`) -/

/-- The preferred default state (autosuspend.c:30). -/
def default_sleep_state : String := "mem"

/-- The hardcoded fallback state (autosuspend.c:31). -/
def fallback_sleep_state : String := "freeze"

/-- The environment `get_sleep_state` consults: the value the
"sleep.state" property currently holds ("" models property_get
returning length 0, i.e. unset or empty), and the content of
/sys/power/state (`none` = the open fails). -/
structure SleepEnv where
  sleepStateProp : String
  powerStateContent : Option String
deriving DecidableEq, Repr

/-- C's `strstr`: does `needle` occur as a contiguous substring of the
haystack? -/
def strstr (needle : List Char) : List Char → Bool
  | [] => needle.isEmpty
  | c :: cs => needle.isPrefixOf (c :: cs) || strstr needle cs

/-- Embedding of `sleep_state_available` (autosuspend.c:126): false if
the power-state node cannot be opened, otherwise a `strstr` search for
the state name in the node's content. -/
def sleep_state_available (env : SleepEnv) (state : String) : Bool :=
  match env.powerStateContent with
  | none => false
  | some buf => strstr state.data buf.data

/-- Embedding of `get_sleep_state` (autosuspend.c:139).  `cached` is
the static buffer's current content ("" = unresolved).  Returns the
string returned to the caller and the buffer's new content: on first
call the precedence is sleep.state property, then "mem" when probed
available, then "freeze"; a non-empty cache is returned unchanged. -/
def get_sleep_state (cached : String) (env : SleepEnv) : String × String :=
  if cached ≠ "" then (cached, cached)
  else
    let r :=
      if env.sleepStateProp ≠ "" then env.sleepStateProp
      else if sleep_state_available env default_sleep_state then default_sleep_state
      else fallback_sleep_state
    (r, r)

/-! ### Lockout semaphore transition system (suspend loop vs callers)

The suspend loop's cycle, `autosuspend_wakeup_count_enable` (sem_post)
and `autosuspend_wakeup_count_disable` (sem_wait) interact only through
the `suspend_lockout` counting semaphore.  We model the loop's position
inside its cycle and the semaphore value, counting completed enable()
posts and completed disable() decrements. -/

/-- Where the suspend thread is inside its cycle: `idle` before or at
the wakeup_count read, `armed` after a successful non-empty read and
before `sem_wait`, `locked` after a successful `sem_wait` and before
the commit write, `committed` after the commit write (and the rest of
the iteration body) and before the final `sem_post`. -/
inductive LoopPC where
  | idle : LoopPC
  | armed : LoopPC
  | locked : LoopPC
  | committed : LoopPC
deriving DecidableEq, Repr

/-- Global state of the lockout protocol: the semaphore value, the
suspend thread's position, and how many enable() posts and disable()
decrements have completed. -/
structure SysState where
  sem : Nat
  pc : LoopPC
  enables : Nat
  disables : Nat
deriving DecidableEq, Repr

/-- 1 when the suspend thread holds a consumed-but-unreleased permit
(between its successful sem_wait and its sem_post), else 0. -/
def holdCount (s : SysState) : Nat :=
  if s.pc = LoopPC.locked ∨ s.pc = LoopPC.committed then 1 else 0

/-- Initial state: `sem_init(&suspend_lockout, 0, 0)` and the loop at
the top of its body. -/
def sysInit : SysState := { sem := 0, pc := LoopPC.idle, enables := 0, disables := 0 }

/-- The atomic actions of the protocol. -/
inductive Label where
  | enableCall : Label
  | disableCall : Label
  | arm : Label
  | armFail : Label
  | acquire : Label
  | acquireFail : Label
  | commit : Label
  | post : Label
deriving DecidableEq, Repr

/-- Labelled transitions.  `enableCall` is
`autosuspend_wakeup_count_enable`'s sem_post; `disableCall` is
`autosuspend_wakeup_count_disable`'s sem_wait completing (it can only
complete when a permit is available); `arm`/`armFail` are the loop's
wakeup_count read succeeding/failing; `acquire`/`acquireFail` are the
loop's sem_wait succeeding (consuming a permit) or erroring;
`commit` is the loop's write of the token back to wakeup_count
(successful or rejected — either way the write executes); `post` is
the loop's final sem_post. -/
inductive Step : SysState → Label → SysState → Prop where
  | enableCall (s : SysState) :
      Step s Label.enableCall
        { s with sem := s.sem + 1, enables := s.enables + 1 }
  | disableCall (s : SysState) (h : 0 < s.sem) :
      Step s Label.disableCall
        { s with sem := s.sem - 1, disables := s.disables + 1 }
  | arm (s : SysState) (h : s.pc = LoopPC.idle) :
      Step s Label.arm { s with pc := LoopPC.armed }
  | armFail (s : SysState) (h : s.pc = LoopPC.idle) :
      Step s Label.armFail s
  | acquire (s : SysState) (h : s.pc = LoopPC.armed) (hs : 0 < s.sem) :
      Step s Label.acquire { s with sem := s.sem - 1, pc := LoopPC.locked }
  | acquireFail (s : SysState) (h : s.pc = LoopPC.armed) :
      Step s Label.acquireFail { s with pc := LoopPC.idle }
  | commit (s : SysState) (h : s.pc = LoopPC.locked) :
      Step s Label.commit { s with pc := LoopPC.committed }
  | post (s : SysState) (h : s.pc = LoopPC.committed) :
      Step s Label.post { s with sem := s.sem + 1, pc := LoopPC.idle }

/-- States reachable from `sysInit` by any interleaving. -/
inductive Reachable : SysState → Prop where
  | init : Reachable sysInit
  | step {s : SysState} {l : Label} {s' : SysState} :
      Reachable s → Step s l s' → Reachable s'

/-!
## Theorems for the claims
-/

/-- Claim C9: every synthetic key injection has the fixed shape — each
key edge is one EV_KEY event immediately followed by one
EV_SYN/SYN_REPORT event with value 0; `send_key_wakeup` emits exactly a
KEY_WAKEUP press (value 1) then a KEY_WAKEUP release (value 0); and a
replayed power press is the same two `emit_key` edges around KEY_POWER
whatever the longpress flag. -/
theorem c9_synthetic_key_shape :
    (∀ (k : Nat) (v : Int),
      emit_key k v =
        [{ type := EV_KEY, code := k, value := v },
         { type := EV_SYN, code := SYN_REPORT, value := 0 }]) ∧
    send_key_wakeup =
      [{ type := EV_KEY, code := KEY_WAKEUP, value := 1 },
       { type := EV_SYN, code := SYN_REPORT, value := 0 },
       { type := EV_KEY, code := KEY_WAKEUP, value := 0 },
       { type := EV_SYN, code := SYN_REPORT, value := 0 }] ∧
    (∀ b : Bool,
      send_key_power b = emit_key KEY_POWER 1 ++ emit_key KEY_POWER 0) :=
  ⟨fun _ _ => rfl, rfl, fun _ => rfl⟩

/-- Claim C6: `set_wakeup_callback` registers the given callback only
when none is registered; any later registration attempt is ignored, and
any sequence of later attempts leaves the originally registered
callback active. -/
theorem c6_wakeup_callback_registration :
    (∀ (α : Type) (f : α), set_wakeup_callback (none : Option α) f = some f) ∧
    (∀ (α : Type) (g f : α), set_wakeup_callback (some g) f = some g) ∧
    (∀ (α : Type) (g : α) (fs : List α),
      fs.foldl (fun cur f => set_wakeup_callback cur f) (some g) = some g) := by
  refine ⟨fun _ _ => rfl, fun _ _ _ => rfl, fun α g fs => ?_⟩
  induction fs with
  | nil => rfl
  | cons f fs ih => simpa [set_wakeup_callback] using ih

/-- Claim C4: `get_sleep_state` resolves at most once with precedence
override property, then probed "mem", then fallback "freeze"; the
resolved value is cached non-empty, and a second call — under any
changed property environment — returns the cached value unchanged. -/
theorem c4_sleep_state_caching (cached : String) (env env2 : SleepEnv)
    (hc : cached ≠ "") :
    (get_sleep_state "" env).1 =
      (if env.sleepStateProp ≠ "" then env.sleepStateProp
       else if sleep_state_available env default_sleep_state then default_sleep_state
       else fallback_sleep_state) ∧
    (get_sleep_state "" env).2 = (get_sleep_state "" env).1 ∧
    (get_sleep_state "" env).1 ≠ "" ∧
    (get_sleep_state (get_sleep_state "" env).2 env2).1 = (get_sleep_state "" env).1 ∧
    get_sleep_state cached env2 = (cached, cached) := by
  have hres : (get_sleep_state "" env).1 ≠ "" := by
    by_cases hp : env.sleepStateProp ≠ ""
    · simp [get_sleep_state, hp]
    · simp [get_sleep_state, hp]
      split <;> simp [default_sleep_state, fallback_sleep_state]
  refine ⟨?_, ?_, hres, ?_, ?_⟩
  · by_cases hp : env.sleepStateProp ≠ "" <;> simp [get_sleep_state, hp]
  · by_cases hp : env.sleepStateProp ≠ "" <;> simp [get_sleep_state, hp]
  · have h2 : (get_sleep_state "" env).2 = (get_sleep_state "" env).1 := by
      by_cases hp : env.sleepStateProp ≠ "" <;> simp [get_sleep_state, hp]
    rw [h2, get_sleep_state, if_pos hres]
  · rw [get_sleep_state, if_pos hc]

/-- Witness for C4 at a concrete cache and environments. -/
theorem c4_sleep_state_caching_witness :
    (get_sleep_state "" { sleepStateProp := "freeze", powerStateContent := some "mem" }).1 =
      (if ("freeze" : String) ≠ "" then "freeze"
       else if sleep_state_available
          { sleepStateProp := "freeze", powerStateContent := some "mem" }
          default_sleep_state then default_sleep_state
       else fallback_sleep_state) ∧
    (get_sleep_state ""
      { sleepStateProp := "freeze", powerStateContent := some "mem" }).2 =
      (get_sleep_state ""
        { sleepStateProp := "freeze", powerStateContent := some "mem" }).1 ∧
    (get_sleep_state ""
      { sleepStateProp := "freeze", powerStateContent := some "mem" }).1 ≠ "" ∧
    (get_sleep_state
      (get_sleep_state ""
        { sleepStateProp := "freeze", powerStateContent := some "mem" }).2
      { sleepStateProp := "", powerStateContent := some "mem" }).1 =
      (get_sleep_state ""
        { sleepStateProp := "freeze", powerStateContent := some "mem" }).1 ∧
    get_sleep_state "mem" { sleepStateProp := "", powerStateContent := some "mem" } =
      ("mem", "mem") :=
  c4_sleep_state_caching "mem"
    { sleepStateProp := "freeze", powerStateContent := some "mem" }
    { sleepStateProp := "", powerStateContent := some "mem" }
    (by decide)

/-- Claim C5: with the controller initialized, `autosuspend_enable` is
a no-op returning 0 when already enabled; otherwise it forwards to the
backend and on backend failure returns the backend status with the
enabled flag unchanged, setting it only on success.
`autosuspend_disable` is symmetric for the disabled state. -/
theorem c5_controller_enable_disable (s : Ctrl) (env : InitEnv) (ret : Int)
    (hin : s.inited = true) :
    (s.enabled = true → autosuspend_enable s env ret = (0, s)) ∧
    (s.enabled = false → ret ≠ 0 → autosuspend_enable s env ret = (ret, s)) ∧
    (s.enabled = false → autosuspend_enable s env 0 = (0, { s with enabled := true })) ∧
    (s.enabled = false → autosuspend_disable s env ret = (0, s)) ∧
    (s.enabled = true → ret ≠ 0 → autosuspend_disable s env ret = (ret, s)) ∧
    (s.enabled = true → autosuspend_disable s env 0 = (0, { s with enabled := false })) := by
  refine ⟨fun he => ?_, fun he hr => ?_, fun he => ?_,
    fun he => ?_, fun he hr => ?_, fun he => ?_⟩
  · simp [autosuspend_enable, autosuspend_init, hin, he]
  · simp [autosuspend_enable, autosuspend_init, hin, he, hr]
  · simp [autosuspend_enable, autosuspend_init, hin, he]
  · simp [autosuspend_disable, autosuspend_init, hin, he]
  · simp [autosuspend_disable, autosuspend_init, hin, he, hr]
  · simp [autosuspend_disable, autosuspend_init, hin, he]

/-- Witness for C5 at a concrete initialized controller state. -/
theorem c5_controller_enable_disable_witness :
    let s : Ctrl := { ops := some Backend.wakeupCount, enabled := false, inited := true }
    let env : InitEnv :=
      { earlysuspendPropBuf := "1", esPowerStateReadable := true,
        fbSleepNodeExists := true, fbWakeNodeExists := true, esThreadCreateOk := true,
        wcStateOpenOk := true, wcWakeupCountOpenOk := true, wcSemInitOk := true,
        wcThreadCreateOk := true }
    (s.enabled = true → autosuspend_enable s env (-1) = (0, s)) ∧
    (s.enabled = false → (-1 : Int) ≠ 0 → autosuspend_enable s env (-1) = (-1, s)) ∧
    (s.enabled = false → autosuspend_enable s env 0 = (0, { s with enabled := true })) ∧
    (s.enabled = false → autosuspend_disable s env (-1) = (0, s)) ∧
    (s.enabled = true → (-1 : Int) ≠ 0 → autosuspend_disable s env (-1) = (-1, s)) ∧
    (s.enabled = true → autosuspend_disable s env 0 = (0, { s with enabled := false })) :=
  c5_controller_enable_disable
    { ops := some Backend.wakeupCount, enabled := false, inited := true }
    { earlysuspendPropBuf := "1", esPowerStateReadable := true,
      fbSleepNodeExists := true, fbWakeNodeExists := true, esThreadCreateOk := true,
      wcStateOpenOk := true, wcWakeupCountOpenOk := true, wcSemInitOk := true,
      wcThreadCreateOk := true }
    (-1) rfl

/-- Claim C10: a failed controller initialization does not latch — when
no backend initializes, `autosuspend_init` returns -1 with the state
(including the one-time-init flag) untouched, enable()/disable() return
that error, and the next init call re-runs the full probe; a successful
selection sets the flag and makes every later init call return 0 with
the state unchanged. -/
theorem c10_failed_init_not_latched (s : Ctrl) (env env2 : InitEnv) (ret : Int)
    (h : s.inited = false) :
    (selectBackend env = none →
      autosuspend_init s env = (-1, s) ∧
      autosuspend_enable s env ret = (-1, s) ∧
      autosuspend_disable s env ret = (-1, s) ∧
      autosuspend_init (autosuspend_init s env).2 env2 = autosuspend_init s env2) ∧
    (∀ b : Backend, selectBackend env = some b →
      autosuspend_init s env = (0, { s with ops := some b, inited := true }) ∧
      autosuspend_init { s with ops := some b, inited := true } env2 =
        (0, { s with ops := some b, inited := true })) := by
  constructor
  · intro hsel
    have hi : autosuspend_init s env = (-1, s) := by
      simp [autosuspend_init, h, hsel]
    refine ⟨hi, ?_, ?_, by rw [hi]⟩ <;>
      simp [autosuspend_enable, autosuspend_disable, hi]
  · intro b hsel
    constructor
    · simp [autosuspend_init, h, hsel]
    · simp [autosuspend_init]

/-- Witness for C10: both the all-backends-fail environment and a
succeeding one, from the fresh controller state. -/
theorem c10_failed_init_not_latched_witness :
    let env : InitEnv :=
      { earlysuspendPropBuf := "0", esPowerStateReadable := false,
        fbSleepNodeExists := false, fbWakeNodeExists := false, esThreadCreateOk := false,
        wcStateOpenOk := false, wcWakeupCountOpenOk := false, wcSemInitOk := false,
        wcThreadCreateOk := false }
    let env2 : InitEnv :=
      { earlysuspendPropBuf := "0", esPowerStateReadable := false,
        fbSleepNodeExists := false, fbWakeNodeExists := false, esThreadCreateOk := false,
        wcStateOpenOk := true, wcWakeupCountOpenOk := true, wcSemInitOk := true,
        wcThreadCreateOk := true }
    (selectBackend env = none →
      autosuspend_init ctrlInit env = (-1, ctrlInit) ∧
      autosuspend_enable ctrlInit env 0 = (-1, ctrlInit) ∧
      autosuspend_disable ctrlInit env 0 = (-1, ctrlInit) ∧
      autosuspend_init (autosuspend_init ctrlInit env).2 env2 =
        autosuspend_init ctrlInit env2) ∧
    (∀ b : Backend, selectBackend env = some b →
      autosuspend_init ctrlInit env =
        (0, { ctrlInit with ops := some b, inited := true }) ∧
      autosuspend_init { ctrlInit with ops := some b, inited := true } env2 =
        (0, { ctrlInit with ops := some b, inited := true })) :=
  c10_failed_init_not_latched ctrlInit
    { earlysuspendPropBuf := "0", esPowerStateReadable := false,
      fbSleepNodeExists := false, fbWakeNodeExists := false, esThreadCreateOk := false,
      wcStateOpenOk := false, wcWakeupCountOpenOk := false, wcSemInitOk := false,
      wcThreadCreateOk := false }
    { earlysuspendPropBuf := "0", esPowerStateReadable := false,
      fbSleepNodeExists := false, fbWakeNodeExists := false, esThreadCreateOk := false,
      wcStateOpenOk := true, wcWakeupCountOpenOk := true, wcSemInitOk := true,
      wcThreadCreateOk := true }
    0 rfl

/-- Counterexample to claim C2 as stated: in a cycle whose commit write
of the token is rejected (readLen = 2, sem_wait ok, commit write fails,
callback registered), the code does not invoke the wakeup callback at
all — the callback call sits inside the commit-succeeded branch — so
the cycle does not "report success=false" to the callback. -/
theorem c2_counterexample :
    (suspend_cycle
      { readLen := 2, semWaitOk := true, commitOk := false,
        stateWriteOk := true, callbackSet := true }).commitAttempted = true ∧
    (suspend_cycle
      { readLen := 2, semWaitOk := true, commitOk := false,
        stateWriteOk := true, callbackSet := true }).callbackInvoked = none ∧
    (suspend_cycle
      { readLen := 2, semWaitOk := true, commitOk := false,
        stateWriteOk := true, callbackSet := true }).callbackInvoked ≠ some false := by
  refine ⟨rfl, rfl, by decide⟩

/-- Claim C2 amended: in every cycle whose commit write is rejected,
the sleep-state node is never written, no wakeup key events are sent,
the wakeup callback is not invoked at all (so in particular it never
fires with success=true), and the lockout semaphore is still posted. -/
theorem c2_commit_rejected_cycle (env : CycleEnv)
    (hr : 0 < env.readLen) (hw : env.semWaitOk = true) (hc : env.commitOk = false) :
    suspend_cycle env =
      { commitAttempted := true, stateWriteAttempted := false, keysSent := [],
        callbackInvoked := none, semPosted := true } := by
  have h1 : ¬(env.readLen < 0 ∨ env.readLen = 0) := by omega
  simp [suspend_cycle, h1, hw, hc]

/-- Witness for the amended C2 at a concrete rejected-commit cycle. -/
theorem c2_commit_rejected_cycle_witness :
    suspend_cycle
      { readLen := 2, semWaitOk := true, commitOk := false,
        stateWriteOk := true, callbackSet := true } =
      { commitAttempted := true, stateWriteAttempted := false, keysSent := [],
        callbackInvoked := none, semPosted := true } :=
  c2_commit_rejected_cycle
    { readLen := 2, semWaitOk := true, commitOk := false,
      stateWriteOk := true, callbackSet := true }
    (by decide) rfl rfl

/-- Counterexample to claim C3 as stated: with the early-suspend flag
set, both fb-wait nodes absent, and the power-state node readable, the
code still selects the EarlySuspend backend (its init only fails when
the power-state node cannot be opened and read; `start_earlysuspend_thread`
swallows the missing-node failure), while the claim's rule would select
WakeupCount. -/
theorem c3_counterexample :
    let env : InitEnv :=
      { earlysuspendPropBuf := "1", esPowerStateReadable := true,
        fbSleepNodeExists := false, fbWakeNodeExists := false, esThreadCreateOk := true,
        wcStateOpenOk := true, wcWakeupCountOpenOk := true, wcSemInitOk := true,
        wcThreadCreateOk := true }
    earlysuspendFlag env = true ∧
    env.fbSleepNodeExists = false ∧
    env.fbWakeNodeExists = false ∧
    selectBackend env = some Backend.earlySuspend ∧
    selectBackendSpecC3 env = some Backend.wakeupCount := by
  exact ⟨by decide, rfl, rfl, by decide, by decide⟩

/-- Claim C3 amended: backend selection is deterministic, but the
EarlySuspend backend is chosen iff the early-suspend flag is set AND
opening-and-reading the power-state node succeeds; the fb-wait nodes
play no role in selection (their absence only leaves the
wait-for-earlysuspend flag unset).  In every other case the selection
falls through to the WakeupCount init's own success or failure. -/
theorem c3_backend_selection (env : InitEnv) :
    (selectBackend env = some Backend.earlySuspend ↔
      earlysuspendFlag env = true ∧ env.esPowerStateReadable = true) ∧
    ((earlysuspendFlag env = false ∨ env.esPowerStateReadable = false) →
      selectBackend env = autosuspend_wakeup_count_init env) ∧
    (earlysuspendFlag env = true → env.esPowerStateReadable = true →
      autosuspend_earlysuspend_init env =
        some (Backend.earlySuspend, start_earlysuspend_thread env)) ∧
    (∀ b1 b2 : Bool,
      selectBackend { env with fbSleepNodeExists := b1, fbWakeNodeExists := b2 } =
        selectBackend env) := by
  have hwc : ∀ e : InitEnv, autosuspend_wakeup_count_init e ≠ some Backend.earlySuspend := by
    intro e
    unfold autosuspend_wakeup_count_init
    split <;> simp
  refine ⟨?_, ?_, ?_, ?_⟩
  · by_cases hf : earlysuspendFlag env = true
    · by_cases hp : env.esPowerStateReadable = true
      · simp [selectBackend, autosuspend_earlysuspend_init, hf, hp]
      · simp only [Bool.not_eq_true] at hp
        simp [selectBackend, autosuspend_earlysuspend_init, hf, hp, hwc env]
    · simp only [Bool.not_eq_true] at hf
      simp [selectBackend, hf, hwc env]
  · rintro (hf | hp)
    · simp [selectBackend, hf]
    · by_cases hf : earlysuspendFlag env = true
      · simp [selectBackend, autosuspend_earlysuspend_init, hf, hp]
      · simp only [Bool.not_eq_true] at hf
        simp [selectBackend, hf]
  · intro hf hp
    simp [autosuspend_earlysuspend_init, hp]
  · intro b1 b2
    by_cases hf : earlysuspendFlag env = true
    · by_cases hp : env.esPowerStateReadable = true
      · simp [selectBackend, autosuspend_earlysuspend_init, earlysuspendFlag] at hf ⊢
        simp [hf, hp]
      · simp only [Bool.not_eq_true] at hp
        simp [selectBackend, autosuspend_earlysuspend_init, earlysuspendFlag,
          autosuspend_wakeup_count_init] at hf ⊢
        simp [hf, hp]
    · simp only [Bool.not_eq_true] at hf
      simp [selectBackend, earlysuspendFlag, autosuspend_wakeup_count_init] at hf ⊢
      simp [hf]

/-- Witness for the amended C3: with the flag unset the selection falls
through to the WakeupCount init, and with flag set plus readable
power-state node the EarlySuspend init succeeds. -/
theorem c3_backend_selection_witness :
    selectBackend
      { earlysuspendPropBuf := "0", esPowerStateReadable := true,
        fbSleepNodeExists := true, fbWakeNodeExists := true, esThreadCreateOk := true,
        wcStateOpenOk := true, wcWakeupCountOpenOk := true, wcSemInitOk := true,
        wcThreadCreateOk := true } =
      autosuspend_wakeup_count_init
        { earlysuspendPropBuf := "0", esPowerStateReadable := true,
          fbSleepNodeExists := true, fbWakeNodeExists := true, esThreadCreateOk := true,
          wcStateOpenOk := true, wcWakeupCountOpenOk := true, wcSemInitOk := true,
          wcThreadCreateOk := true } ∧
    autosuspend_earlysuspend_init
      { earlysuspendPropBuf := "1", esPowerStateReadable := true,
        fbSleepNodeExists := true, fbWakeNodeExists := true, esThreadCreateOk := true,
        wcStateOpenOk := true, wcWakeupCountOpenOk := true, wcSemInitOk := true,
        wcThreadCreateOk := true } =
      some (Backend.earlySuspend, start_earlysuspend_thread
        { earlysuspendPropBuf := "1", esPowerStateReadable := true,
          fbSleepNodeExists := true, fbWakeNodeExists := true, esThreadCreateOk := true,
          wcStateOpenOk := true, wcWakeupCountOpenOk := true, wcSemInitOk := true,
          wcThreadCreateOk := true }) :=
  ⟨(c3_backend_selection
      { earlysuspendPropBuf := "0", esPowerStateReadable := true,
        fbSleepNodeExists := true, fbWakeNodeExists := true, esThreadCreateOk := true,
        wcStateOpenOk := true, wcWakeupCountOpenOk := true, wcSemInitOk := true,
        wcThreadCreateOk := true }).2.1 (Or.inl (by decide)),
   (c3_backend_selection
      { earlysuspendPropBuf := "1", esPowerStateReadable := true,
        fbSleepNodeExists := true, fbWakeNodeExists := true, esThreadCreateOk := true,
        wcStateOpenOk := true, wcWakeupCountOpenOk := true, wcSemInitOk := true,
        wcThreadCreateOk := true }).2.2.1 (by decide) rfl⟩

/-- Counterexample to claim C7 as stated: the immediate-synthesize path
does not clear the long-press flag.  With double-click off and the
initial state (longpress = true), two consecutive power-key releases
both synthesize a long press; under the claim the first synthesize
would have cleared the flag, making the second press short. -/
theorem c7_counterexample :
    powerbtnd_run false btnInit
      [PollOutcome.ev powerRelease, PollOutcome.ev powerRelease] = [true, true] ∧
    (powerbtnd_step false btnInit (PollOutcome.ev powerRelease)).1.longpress = true := by
  exact ⟨by decide, by decide⟩

/-- Claim C7 amended: on a power-key release with double-click off or a
window pending, the monitor immediately synthesizes one power press
honoring the carried long-press flag and clears only the window — the
long-press flag is left unchanged, not cleared; with double-click on
and no window pending it arms a 1000 ms window; a window timeout
synthesizes exactly one short press, clears the window and re-arms the
long-press flag; a non-zero SYN_REPORT clears the long-press flag and
arms a 1000 ms window; and a release followed by a resume report and
then the window timeout synthesizes exactly one short press, never a
long one. -/
theorem c7_powerbtn_monitor :
    (∀ (dc : Bool) (s : BtnState), (dc = false ∨ s.timeout > 0) →
      powerbtnd_step dc s (PollOutcome.ev powerRelease) =
        ({ s with timeout := -1 }, [s.longpress])) ∧
    (∀ s : BtnState, ¬s.timeout > 0 →
      powerbtnd_step true s (PollOutcome.ev powerRelease) =
        ({ s with timeout := 1000 }, [])) ∧
    (∀ (dc : Bool) (s : BtnState),
      powerbtnd_step dc s PollOutcome.timeoutFire =
        ({ timeout := -1, longpress := true }, [false])) ∧
    (∀ (dc : Bool) (s : BtnState),
      powerbtnd_step dc s (PollOutcome.ev resumeReport) =
        ({ timeout := 1000, longpress := false }, [])) ∧
    powerbtnd_run true btnInit
      [PollOutcome.ev powerRelease, PollOutcome.ev resumeReport,
       PollOutcome.timeoutFire] = [false] := by
  refine ⟨?_, ?_, fun _ _ => rfl, ?_, by decide⟩
  · intro dc s h
    rcases h with h | h
    · subst h
      simp [powerbtnd_step, powerRelease]
    · simp [powerbtnd_step, powerRelease, h]
  · intro s h
    simp [powerbtnd_step, powerRelease, h]
  · intro dc s
    simp [powerbtnd_step, resumeReport]

/-- Witness for the amended C7: the immediate-synthesize branch applied
at the initial state with double-click off. -/
theorem c7_powerbtn_monitor_witness :
    powerbtnd_step false btnInit (PollOutcome.ev powerRelease) =
      ({ btnInit with timeout := -1 }, [btnInit.longpress]) :=
  c7_powerbtn_monitor.1 false btnInit (Or.inl rfl)

/-- The `openfds` scan never keeps more devices than the
MAX_POWERBTNS budget left at its current count. -/
theorem openfdsAux_length_le (entries : List InputDevEntry) :
    ∀ cnt : Nat, (openfdsAux entries cnt).1.length ≤ MAX_POWERBTNS - cnt := by
  induction entries with
  | nil => intro cnt; simp [openfdsAux]
  | cons e es ih =>
    intro cnt
    simp only [openfdsAux]
    split_ifs with h1 h2 h3 h4
    · have := ih (cnt + 1)
      simp only [List.length_cons]
      omega
    · exact ih cnt
    · exact ih cnt
    · exact ih cnt
    · simp

/-- Every device the `openfds` scan keeps reported the name
"Power Button". -/
theorem openfdsAux_kept_match (entries : List InputDevEntry) :
    ∀ (cnt : Nat) (e : InputDevEntry), e ∈ (openfdsAux entries cnt).1 →
      reportedName e = "Power Button" := by
  induction entries with
  | nil => intro cnt e he; simp [openfdsAux] at he
  | cons d es ih =>
    intro cnt e he
    simp only [openfdsAux] at he
    split_ifs at he with h1 h2 h3 h4
    · rcases List.mem_cons.mp he with rfl | hm
      · exact h4
      · exact ih (cnt + 1) e hm
    · exact ih cnt e he
    · exact ih cnt e he
    · exact ih cnt e he
    · simp at he

/-- Every device the `openfds` scan closes reported a name other than
"Power Button". -/
theorem openfdsAux_closed_no_match (entries : List InputDevEntry) :
    ∀ (cnt : Nat) (e : InputDevEntry), e ∈ (openfdsAux entries cnt).2 →
      reportedName e ≠ "Power Button" := by
  induction entries with
  | nil => intro cnt e he; simp [openfdsAux] at he
  | cons d es ih =>
    intro cnt e he
    simp only [openfdsAux] at he
    split_ifs at he with h1 h2 h3 h4
    · exact ih (cnt + 1) e he
    · rcases List.mem_cons.mp he with rfl | hm
      · exact h4
      · exact ih cnt e hm
    · exact ih cnt e he
    · exact ih cnt e he
    · simp at he

/-- Every device the `openfds` scan keeps came from the scanned
directory entries. -/
theorem openfdsAux_kept_subset (entries : List InputDevEntry) :
    ∀ (cnt : Nat) (e : InputDevEntry), e ∈ (openfdsAux entries cnt).1 →
      e ∈ entries := by
  induction entries with
  | nil => intro cnt e he; simp [openfdsAux] at he
  | cons d es ih =>
    intro cnt e he
    simp only [openfdsAux] at he
    split_ifs at he with h1 h2 h3 h4
    · rcases List.mem_cons.mp he with rfl | hm
      · exact List.mem_cons_self _ _
      · exact List.mem_cons_of_mem d (ih (cnt + 1) e hm)
    · exact List.mem_cons_of_mem d (ih cnt e he)
    · exact List.mem_cons_of_mem d (ih cnt e he)
    · exact List.mem_cons_of_mem d (ih cnt e he)
    · simp at he

/-- Claim C8: the startup scan keeps at most MAX_POWERBTNS = 3 devices,
keeps only devices whose reported name equals "Power Button", closes
every opened non-matching device, keeps nothing when no entry matches,
and with zero matched devices the monitor thread's loop is never
entered so it synthesizes no key at all (the scan consumes the
directory listing exactly once by construction, and the suspend-loop
embedding `suspend_cycle` takes no input from the monitor). -/
theorem c8_powerbtn_scan (entries : List InputDevEntry) (dc : Bool)
    (script : List PollOutcome) :
    (openfds entries).1.length ≤ MAX_POWERBTNS ∧
    (∀ e ∈ (openfds entries).1, reportedName e = "Power Button") ∧
    (∀ e ∈ (openfds entries).2, reportedName e ≠ "Power Button") ∧
    ((∀ e ∈ entries, reportedName e ≠ "Power Button") → (openfds entries).1 = []) ∧
    powerbtnd_thread dc 0 script = [] := by
  have hlen : (openfds entries).1.length ≤ MAX_POWERBTNS := by
    have := openfdsAux_length_le entries 0
    simpa [openfds] using this
  have hkept : ∀ e ∈ (openfds entries).1, reportedName e = "Power Button" :=
    fun e he => openfdsAux_kept_match entries 0 e he
  refine ⟨hlen, hkept, fun e he => openfdsAux_closed_no_match entries 0 e he,
    fun hnone => ?_, rfl⟩
  cases hk : (openfds entries).1 with
  | nil => rfl
  | cons e es =>
    exfalso
    have hm : e ∈ (openfds entries).1 := by rw [hk]; exact List.mem_cons_self e es
    exact hnone e (openfdsAux_kept_subset entries 0 e hm) (hkept e hm)

/-- Witness for C8 at a concrete directory listing with no matching
device: the scan keeps nothing and the monitor emits nothing. -/
theorem c8_powerbtn_scan_witness :
    (openfds
      [{ d_name := "event0", openable := true, devName := some "AT Keyboard" },
       { d_name := "event1", openable := true, devName := none },
       { d_name := "mouse0", openable := true, devName := some "Mouse" }]).1.length ≤
      MAX_POWERBTNS ∧
    (openfds
      [{ d_name := "event0", openable := true, devName := some "AT Keyboard" },
       { d_name := "event1", openable := true, devName := none },
       { d_name := "mouse0", openable := true, devName := some "Mouse" }]).1 = [] ∧
    powerbtnd_thread true 0 [PollOutcome.ev powerRelease] = [] :=
  let thm := c8_powerbtn_scan
    [{ d_name := "event0", openable := true, devName := some "AT Keyboard" },
     { d_name := "event1", openable := true, devName := none },
     { d_name := "mouse0", openable := true, devName := some "Mouse" }]
    true [PollOutcome.ev powerRelease]
  ⟨thm.1, thm.2.2.2.1 (by decide), thm.2.2.2.2⟩

/-- The lockout accounting invariant: at every reachable state the
semaphore value, the completed disable() decrements and the suspend
thread's held permit sum to the completed enable() posts. -/
theorem lockout_invariant {s : SysState} (h : Reachable s) :
    s.sem + s.disables + holdCount s = s.enables := by
  induction h with
  | init => rfl
  | step hr hs ih =>
    cases hs with
    | enableCall => simp only [holdCount] at ih ⊢; omega
    | disableCall h => simp only [holdCount] at ih ⊢; omega
    | arm h => simp_all [holdCount]
    | armFail h => exact ih
    | acquire h hs => simp_all [holdCount]; omega
    | acquireFail h => simp_all [holdCount]
    | commit h => simp_all [holdCount]
    | post h => simp_all [holdCount]; omega

/-- Claim C1: over every interleaving of enable()/disable() calls with
the suspend loop, reachable states satisfy the permit accounting
invariant (the loop acquires exactly one permit per cycle and posts it
back exactly once before the cycle ends), and a commit write can only
execute from a state where the loop holds a permit won by sem_wait —
hence the completed disable() decrements are strictly fewer than the
enable() posts there, so once disable() has consumed the last unmatched
permit, no commit executes until a further enable() posts one. -/
theorem c1_commit_lockout (s : SysState) (h : Reachable s) :
    s.sem + s.disables + holdCount s = s.enables ∧
    (∀ s' : SysState, Step s Label.commit s' →
      s.pc = LoopPC.locked ∧ s.disables < s.enables) := by
  have hinv := lockout_invariant h
  refine ⟨hinv, fun s' hs => ?_⟩
  cases hs with
  | commit hpc =>
    refine ⟨hpc, ?_⟩
    have hc : holdCount s = 1 := by simp [holdCount, hpc]
    omega

/-- Witness for C1: the reachable state after enable(), a successful
wakeup-count read and a successful sem_wait, from which the commit
step runs. -/
theorem c1_commit_lockout_witness :
    let s : SysState := { sem := 0, pc := LoopPC.locked, enables := 1, disables := 0 }
    s.sem + s.disables + holdCount s = s.enables ∧ s.disables < s.enables := by
  intro s
  have h1 : Reachable { sem := 1, pc := LoopPC.idle, enables := 1, disables := 0 } :=
    Reachable.step Reachable.init (Step.enableCall sysInit)
  have h2 : Reachable { sem := 1, pc := LoopPC.armed, enables := 1, disables := 0 } :=
    Reachable.step h1
      (Step.arm { sem := 1, pc := LoopPC.idle, enables := 1, disables := 0 } rfl)
  have h3 : Reachable s :=
    Reachable.step h2
      (Step.acquire { sem := 1, pc := LoopPC.armed, enables := 1, disables := 0 }
        rfl (by decide))
  have hmain := c1_commit_lockout s h3
  exact ⟨hmain.1, (hmain.2 { s with pc := LoopPC.committed } (Step.commit s rfl)).2⟩

end Autosuspend
